/-
Verification of the newco-ai-agent interview application.

The development shallowly embeds the Python source files
(src/utils/openai_client.py, src/utils/supabase_client.py,
src/utils/prompts.py, src/app.py) as executable Lean definitions.
Remote calls (the OpenAI completion API, the Supabase write) are
modelled as oracle parameters describing the outcome of each attempt;
Python exceptions are modelled with `Except`; Python dynamic typing is
modelled where the embedded code branches on it (dict-ness of message
elements, list-ness of arguments, string-ness of field values).
-/
import Mathlib

namespace NewcoAgent

/-- A Python value that the embedded code only ever asks "is it a string,
and which one" about: the `role`/`content` values of a message dict. -/
inductive PyV where
  | str (s : String)
  | other
deriving DecidableEq

/-- A Python exception class, as far as the embedded code distinguishes them. -/
inductive PyErr where
  | valueError
  | typeError
  | keyError
  | attributeError
deriving DecidableEq

/-- One element of a `messages` list: either a dict (with the `role` and
`content` keys optionally present, carrying values of dynamic type) or a
non-dict value. -/
structure MsgV where
  isDict : Bool
  role? : Option PyV
  content? : Option PyV
deriving DecidableEq

/-- Convenience constructor for a well-formed message dict with string
role and content. -/
def mkMsg (role content : String) : MsgV :=
  ⟨true, some (.str role), some (.str content)⟩

/-- Python str.strip() on the character list: drop whitespace from both ends. -/
def pyStripChars (l : List Char) : List Char :=
  ((l.dropWhile Char.isWhitespace).reverse.dropWhile Char.isWhitespace).reverse

/-- Python str.strip(). -/
def pyStrip (s : String) : String :=
  ⟨pyStripChars s.data⟩

/-! ## Remote Completion Gateway: get_chat_response (src/utils/openai_client.py, lines 32-129)

The body of the `for attempt in range(max_retries)` loop either streams a
successful response or hits one of the classified exceptions.  The outcome
of each attempt is an oracle `Nat → AttemptOutcome` indexed by the 0-based
attempt number; the time.sleep back-off pauses between attempts (line 81,
93, 105, 125) do not influence control flow and are not observable in the
trace. -/

/-- The outcome of one attempt of the completion call. -/
inductive AttemptOutcome where
  | success (chunks : List String)
  | rateLimit
  | timeout
  | connError
  | authError
  | otherError
deriving DecidableEq

/-- User-facing message yielded after exhausting retries on RateLimitError. -/
def rateLimitMsg : String :=
  "I'm currently experiencing high demand. Please try again in a few moments."

/-- User-facing message yielded after exhausting retries on APITimeoutError. -/
def timeoutMsg : String :=
  "The request timed out. Please try again."

/-- User-facing message yielded after exhausting retries on APIConnectionError. -/
def connectionMsg : String :=
  "I'm having trouble connecting. Please check your internet connection and try again."

/-- User-facing message yielded immediately on AuthenticationError. -/
def authenticationMsg : String :=
  "Authentication error. Please contact support."

/-- User-facing message yielded after exhausting retries on a generic Exception. -/
def genericErrorMsg : String :=
  "I apologize, but I'm experiencing technical difficulties. Please try again later."

/-- What a full run of get_chat_response produces: the strings the generator
yielded, and how many attempts it made. -/
structure ChatTrace where
  chunks : List String
  attempts : Nat
deriving DecidableEq

/-- The retry loop of get_chat_response.  `attempt` is the 0-based index of
the current attempt and `fuel` the number of loop iterations remaining
(`fuel = max_retries - attempt`); the test `attempt < max_retries - 1` of the
source is `0 < fuel - 1`, i.e. the `fuel+1` pattern with `0 < fuel`.  The
`fuel = 0` case is unreachable from the 3-attempt entry point. -/
def chatAttempts (oracle : Nat → AttemptOutcome) : Nat → Nat → ChatTrace
  | attempt, fuel + 1 =>
    match oracle attempt with
    | .success chunks => ⟨chunks, attempt + 1⟩
    | .rateLimit =>
      if 0 < fuel then chatAttempts oracle (attempt + 1) fuel
      else ⟨[rateLimitMsg], attempt + 1⟩
    | .timeout =>
      if 0 < fuel then chatAttempts oracle (attempt + 1) fuel
      else ⟨[timeoutMsg], attempt + 1⟩
    | .connError =>
      if 0 < fuel then chatAttempts oracle (attempt + 1) fuel
      else ⟨[connectionMsg], attempt + 1⟩
    | .authError => ⟨[authenticationMsg], attempt + 1⟩
    | .otherError =>
      if 0 < fuel then chatAttempts oracle (attempt + 1) fuel
      else ⟨[genericErrorMsg], attempt + 1⟩
  | attempt, 0 => ⟨[], attempt⟩

/-- get_chat_response: run the retry loop with max_retries = 3 starting at
attempt 0.  The function never propagates an exception: every branch of the
source either yields chunks or yields a fixed message and returns, which is
why the model is total with a plain `ChatTrace` result. -/
def get_chat_response (oracle : Nat → AttemptOutcome) : ChatTrace :=
  chatAttempts oracle 0 3

/-- An attempt outcome the source classifies as transient (retried). -/
def TransientOutcome (x : AttemptOutcome) : Prop :=
  x = .rateLimit ∨ x = .timeout ∨ x = .connError

/-! ## Completion detector (modelled from the spec)

No completion-detector code exists under src/: the sentinel phrase appears
only inside the prompt text of src/utils/prompts.py, and src/app.py never
inspects assistant replies for it.  The detector is therefore modelled from
the spec. -/

/-- Modelled from the spec: the single sentinel configuration constant the
dialogue engine emits to signal completion.  The repository's prompts use
the underscore variant ("INTERVIEW_COMPLETE - Please click the 'End
Conversation' button to save your interview."). -/
def SENTINEL : String := "INTERVIEW_COMPLETE"

/-- Case-insensitive view of a string: its characters, lowercased. -/
def lowerChars (s : String) : List Char :=
  s.data.map Char.toLower

/-- Modelled from the spec: is_complete(latest_assistant_reply) is true iff
the case-insensitive text contains the sentinel phrase. -/
def is_complete (reply : String) : Bool :=
  decide (lowerChars SENTINEL <:+: lowerChars reply)

/-! ## generate_evaluation (src/utils/openai_client.py, lines 182-281)

Python's JSON values, and the dynamic behaviour of `field not in data` /
`data[field] = v` on each shape, are modelled so that the backfill loop of
lines 246-249 is embedded faithfully.

A latent arity bug shapes this function: ErrorLogger.log_warning
(src/utils/logger.py, line 74) requires a second positional `context`
argument, and the calls at lines 194, 215 and 248 pass only the message,
so each of those calls raises TypeError when reached.  Hence the returns
of lines 195-203 and 216-224 are dead code (the empty-input and
empty-transcript paths fall to the outer except handler instead), and in
the field-missing branch of the backfill loop line 249's default
assignment is dead code: the loop aborts to the outer handler on the
first missing field. -/

/-- A value json.loads can return. -/
inductive JVal where
  | jnull
  | jbool (b : Bool)
  | jnum (n : Int)
  | jstr (s : String)
  | jarr (elems : List JVal)
  | jobj (fields : List (String × JVal))

/-- The six required fields of line 245, in source order. -/
def requiredFields : List String :=
  ["sentiment", "key_topics", "user_satisfaction", "conversation_quality",
   "main_concerns", "resolution_status"]

/-- The per-field backfill default of line 249: None for the two list
fields, 5 for the two score fields, "neutral" for sentiment and
"unresolved" for resolution_status.  Dead code in the program: the
one-argument log_warning call on line 248 raises TypeError before the
assignment can run.  Kept to document the intended values. -/
def defaultFor (f : String) : JVal :=
  if f = "key_topics" ∨ f = "main_concerns" then .jnull
  else if f = "user_satisfaction" ∨ f = "conversation_quality" then .jnum 5
  else if f = "sentiment" then .jstr "neutral"
  else .jstr "unresolved"

/-- Python `f in v`: key membership for a dict, substring containment for a
str, element equality (against the string f) for a list, and a TypeError
for the non-container shapes. -/
def pyContains (v : JVal) (f : String) : Except PyErr Bool :=
  match v with
  | .jobj l => .ok (l.any (fun p => p.1 = f))
  | .jstr s => .ok (decide (f.data <:+: s.data))
  | .jarr l => .ok (l.any (fun x => match x with | .jstr s => s = f | _ => false))
  | _ => .error .typeError

/-- Python `v[f] = x` for an assoc-list dict (the key would be absent, so
the assignment appends); a TypeError on every other shape.  Dead code in
the program, like `defaultFor`: line 249 is never reached. -/
def pySetItem (v : JVal) (f : String) (x : JVal) : Except PyErr JVal :=
  match v with
  | .jobj l => .ok (.jobj (l ++ [(f, x)]))
  | _ => .error .typeError

/-- The backfill loop of lines 246-249 as the program executes it: for
each required field, evaluate `field not in evaluation_data` (whose
exception, if any, propagates); a contained field is skipped; a missing
field reaches the one-argument ErrorLogger.log_warning call of line 248,
which raises TypeError (`context` is a required argument), so line 249's
default assignment never runs and the loop aborts.  Every exception
propagates to the outer try/except of the source (the inner handler
catches only json.JSONDecodeError). -/
def backfill : List String → JVal → Except PyErr JVal
  | [], v => .ok v
  | f :: rest, v =>
    match pyContains v f with
    | .error e => .error e
    | .ok true => backfill rest v
    | .ok false => .error .typeError

/-- Python str.title() restricted to the two role strings that can reach it
in the transcript formatting (the filter admits only "user"/"assistant"). -/
def pyTitle (r : String) : String :=
  if r = "user" then "User" else if r = "assistant" then "Assistant" else r

/-- One element of the transcript comprehension of lines 208-212:
`f"{msg['role'].title()}: {msg['content']}" for msg in messages if
msg['role'] in ['user','assistant'] and msg.get('content','').strip()`.
Returns the formatted part, none when the element is filtered out, or the
Python exception the element evaluation raises (TypeError on a non-dict
subscript, KeyError on a missing role key, AttributeError on .strip() of a
non-str content). -/
def filterPart (m : MsgV) : Except PyErr (Option String) :=
  if m.isDict = false then .error .typeError
  else
    match m.role? with
    | none => .error .keyError
    | some .other => .ok none
    | some (.str r) =>
      if r = "user" ∨ r = "assistant" then
        match m.content? with
        | none => .ok none
        | some .other => .error .attributeError
        | some (.str c) =>
          if pyStrip c = "" then .ok none
          else .ok (some (pyTitle r ++ ": " ++ c))
      else .ok none

/-- The filtered transcript parts, in order; an element exception aborts. -/
def transcriptParts : List MsgV → Except PyErr (List String)
  | [] => .ok []
  | m :: rest =>
    match filterPart m with
    | .error e => .error e
    | .ok none => transcriptParts rest
    | .ok (some s) => (transcriptParts rest).map (fun l => s :: l)

/-- conversation_text: the newline join of the filtered parts. -/
def conversationText (messages : List MsgV) : Except PyErr String :=
  (transcriptParts messages).map (String.intercalate "\n")

/-- The neutral-default record of lines 195-203 and 216-224, with the
path's error message.  Dead code in the program: the one-argument
log_warning calls of lines 194 and 215 raise TypeError first, so those
paths return the generic-exception record instead.  Kept to document the
intended values (and as a sample payload elsewhere). -/
def neutralRecord (err : String) : JVal :=
  .jobj [("sentiment", .jstr "neutral"), ("key_topics", .jarr []),
    ("user_satisfaction", .jnum 5), ("conversation_quality", .jnum 5),
    ("main_concerns", .jarr []), ("resolution_status", .jstr "unresolved"),
    ("error", .jstr err)]

/-- Truncation of lines 255 and 265: first 200 characters plus "..." when
the text is longer than 200 characters, the text itself otherwise. -/
def truncate200 (s : String) : String :=
  if 200 < s.length then s.take 200 ++ "..." else s

/-- The record of lines 257-266 returned when json.loads fails:
neutral defaults, an error marker, and the truncated raw response. -/
def parseFailRecord (evaluationText : String) : JVal :=
  .jobj [("sentiment", .jstr "neutral"), ("key_topics", .jarr []),
    ("user_satisfaction", .jnum 5), ("conversation_quality", .jnum 5),
    ("main_concerns", .jarr []), ("resolution_status", .jstr "unresolved"),
    ("error", .jstr "Failed to parse evaluation JSON"),
    ("raw_response", .jstr (truncate200 evaluationText))]

/-- The record of lines 273-281 returned by the outer except handler; the
source interpolates str(e) into the error string, which the model keeps as
a fixed marker. -/
def genericErrorRecord : JVal :=
  .jobj [("sentiment", .jstr "neutral"), ("key_topics", .jarr []),
    ("user_satisfaction", .jnum 5), ("conversation_quality", .jnum 5),
    ("main_concerns", .jarr []), ("resolution_status", .jstr "unresolved"),
    ("error", .jstr "Error generating evaluation")]

/-- The outcome of the completion API call of lines 228-236: either it
raises, or it returns response text `raw` whose stripped form json.loads
then parses with outcome `parsed` (error = json.JSONDecodeError). -/
inductive ModelCall where
  | exn
  | resp (raw : String) (parsed : Except Unit JVal)

/-- generate_evaluation.  `clientOk` is whether get_openai_client() (line
205) succeeded; a failure there, an exception while formatting the
transcript, a raising API call, and an exception out of the backfill loop
all fall to the outer except handler of lines 268-281.  The empty-input
and empty-transcript branches also end there: their one-argument
log_warning calls (lines 194 and 215) raise TypeError before the
neutral-record returns, so both produce the generic-exception record.
The function itself never raises: its result type is a plain JVal. -/
def generate_evaluation (messages : List MsgV) (clientOk : Bool)
    (call : ModelCall) : JVal :=
  if messages.isEmpty then genericErrorRecord
  else if clientOk = false then genericErrorRecord
  else
    match conversationText messages with
    | .error _ => genericErrorRecord
    | .ok txt =>
      if pyStrip txt = "" then genericErrorRecord
      else
        match call with
        | .exn => genericErrorRecord
        | .resp raw parsed =>
          match parsed with
          | .error _ => parseFailRecord (pyStrip raw)
          | .ok v =>
            match backfill requiredFields v with
            | .ok v2 => v2
            | .error _ => genericErrorRecord

/-- Lookup of a key in a JSON object; none for non-objects. -/
def jLookup (v : JVal) (f : String) : Option JVal :=
  match v with
  | .jobj l => (l.find? (fun p => p.1 = f)).map (fun p => p.2)
  | _ => none

/-- Whether a value is a record carrying all six required keys. -/
def hasRequiredKeys (v : JVal) : Bool :=
  match v with
  | .jobj l => requiredFields.all (fun f => l.any (fun p => p.1 = f))
  | _ => false

/-- Whether the call path of generate_evaluation reaches the API call:
non-empty input, transcript formatting raises nothing, and the joined
transcript is not whitespace-only. -/
def reachesCall (messages : List MsgV) : Bool :=
  !messages.isEmpty &&
    match conversationText messages with
    | .ok txt => !(pyStrip txt = "")
    | .error _ => false

/-! ## Conversation Store: save_conversation (src/utils/supabase_client.py, lines 43-120)

The whole body — input validation included — sits inside the
`for attempt in range(max_retries)` loop, and every exception falls to a
handler that logs `len(messages)` before sleeping/continuing or returning
False.  The underlying `insert(...).execute()` is an oracle indexed by the
attempt number; the record payload (summary/evaluation columns) does not
influence control flow and is absorbed into that oracle. -/

/-- The session_id argument: a Python str, or a value of another type. -/
inductive SessArg where
  | str (s : String)
  | nonStr
deriving DecidableEq

/-- A Python argument annotated List[Dict[str, str]]: an actual list of
message values, or a non-list value, of which the embedded code observes
only its truthiness and whether it supports len(). -/
inductive PyListArg where
  | list (l : List MsgV)
  | nonList (truthy hasLen : Bool)
deriving DecidableEq

/-- The validation of line 67: `not session_id or not isinstance(session_id, str)`. -/
def sessionIdOk : SessArg → Bool
  | .str s => !(s = "")
  | .nonStr => false

/-- The element validation of line 75: a dict with both a role and a
content key (the values are not inspected here). -/
def msgWellFormed (m : MsgV) : Bool :=
  m.isDict && m.role?.isSome && m.content?.isSome

/-- The messages validation of lines 70-76: a non-empty list all of whose
elements are well-formed dicts. -/
def msgsValid : PyListArg → Bool
  | .list l => !l.isEmpty && l.all msgWellFormed
  | .nonList _ _ => false

/-- Whether `len(messages)` (line 109, inside the except handler) succeeds. -/
def msgsLenOk : PyListArg → Bool
  | .list _ => true
  | .nonList _ hasLen => hasLen

/-- The outcome of one `insert(...).execute()` call: a result whose `.data`
is non-empty or empty, or an exception. -/
inductive WriteOutcome where
  | ok (hasData : Bool)
  | exn
deriving DecidableEq

/-- What a full run of save_conversation produces: the returned value or
the propagated exception, the number of underlying write calls made, and
the list of back-off sleeps (in seconds) in order. -/
structure SaveTrace where
  result : Except PyErr Bool
  writeCalls : Nat
  sleeps : List Nat

/-- The retry loop of save_conversation, with `attempt`/`fuel` as in
`chatAttempts`.  An invalid input raises ValueError before the client is
touched; the except handler then evaluates `len(messages)` — a TypeError
there propagates out of the function — and otherwise sleeps
`retry_delay * 2 ** attempt` and continues, or returns False on the last
attempt.  A valid input reaches the write: a result with data returns
True, a result without data returns False at once (no retry), and an
exception retries like a validation failure.  The `fuel = 0` case is
unreachable from the 3-attempt entry point. -/
def saveAttempts (sid : SessArg) (msgs : PyListArg)
    (write : Nat → WriteOutcome) : Nat → Nat → SaveTrace
  | attempt, fuel + 1 =>
    if sessionIdOk sid && msgsValid msgs then
      match write attempt with
      | .ok true => ⟨.ok true, 1, []⟩
      | .ok false => ⟨.ok false, 1, []⟩
      | .exn =>
        if 0 < fuel then
          let t := saveAttempts sid msgs write (attempt + 1) fuel
          ⟨t.result, t.writeCalls + 1, 2 ^ attempt :: t.sleeps⟩
        else ⟨.ok false, 1, []⟩
    else
      if msgsLenOk msgs then
        if 0 < fuel then
          let t := saveAttempts sid msgs write (attempt + 1) fuel
          ⟨t.result, t.writeCalls, 2 ^ attempt :: t.sleeps⟩
        else ⟨.ok false, 0, []⟩
      else ⟨.error .typeError, 0, []⟩
  | _, 0 => ⟨.ok false, 0, []⟩

/-- save_conversation: the retry loop with max_retries = 3. -/
def save_conversation (sid : SessArg) (msgs : PyListArg)
    (write : Nat → WriteOutcome) : SaveTrace :=
  saveAttempts sid msgs write 0 3

/-- Valid input to save_conversation: the conjunction of the session-id
and messages validations. -/
def validSaveInput (sid : SessArg) (msgs : PyListArg) : Bool :=
  sessionIdOk sid && msgsValid msgs

/-! ## Session Save Orchestrator: save_conversation_with_summary
(src/utils/supabase_client.py, lines 122-187) -/

/-- save_conversation_with_summary.  On the empty-messages branch the
one-argument log_warning of line 138 actually raises TypeError, which
the function's own outer except handler (lines 182-187) catches and
turns into False — observationally the same "return False without
calling the store" the model computes directly.  The generate_summary /
evaluation calls are oracles that either return a value or raise (each
wrapped in its own try/except, line 147-165: a failure leaves the
corresponding local at None); the store call is the oracle `put`, which
for a non-empty list argument always returns a bool (save_conversation's
messages validation can then only fail via session_id, which returns
False, not an exception).  The result records the returned bool and,
when the store was called, the summary/evaluation arguments it
received. -/
def save_conversation_with_summary (messages : List MsgV)
    (genSummary : Except PyErr String) (genEval : Except PyErr JVal)
    (put : Option String → Option JVal → Bool) :
    Bool × Option (Option String × Option JVal) :=
  if messages.isEmpty then (false, none)
  else
    let summary := genSummary.toOption
    let evaluation := genEval.toOption
    (put summary evaluation, some (summary, evaluation))

/-! ## Prompt Assembler: create_messages_with_system_prompt
(src/utils/openai_client.py, lines 283-332) and the fixed system prompt
(src/utils/prompts.py). -/

/-- SYSTEM_PROMPT of src/utils/prompts.py: the fixed interview script. -/
def SYSTEM_PROMPT : String :=
  "You are \"The Unfair Advantage Scout,\" an expert mentor and interviewer for aspiring startup founders.\n\nYour purpose is to help the founder identify their unique strengths, motivations, and insights that could serve as their unfair advantage when building a startup. You must guide them through a structured but natural interview of seven questions: one preliminary setup question and six thematic questions.\n\nInterview Flow:\n1. Begin by asking for the founder's name and to describe their main professional experiences over the past five years, including organizations and roles.\n2. Then cover the following six core themes. You must ensure that by the end of the conversation, each theme has been explored, even if they are discussed in a different order or phrasing:\n   - Theme 1: What did their colleagues or supervisors rely on them for, and what did they stand out for in previous roles?\n   - Theme 2: What have they spent the most time building or improving in their career where they applied creativity and effective problem-solving?\n   - Theme 3: What is a common assumption or belief in their industry that they have learned is wrong or improvable?\n   - Theme 4: What special network of professionals do they have access to—experts, investors, academics, or particularly skilled individuals?\n   - Theme 5: What do they know is coming in the future that others underestimate or overlook, but that they believe is inevitable?\n   - Theme 6: If they had one million dollars to start something, what would they build, and what technologies or resources would they use?\n\nTone and Behavior:\n- Be rigorous but supportive. Stay factual, analytical, and curious.\n- Ask only one main question at a time. Encourage the founder to reflect deeply and provide examples.\n- Answer clarification questions helpfully, but always guide the conversation back to the core topics.\n- Adapt the phrasing and follow-ups to the founder's previous responses while maintaining professional focus.\n- Remind the founder when three questions remain and again when only the final question is left.\n- Keep responses natural and concise, prioritizing quality and clarity over brevity.\n\nEnd of Interview:\nWhen all six themes have been discussed, thank the founder and end your final message with exactly this text:\n\n\"INTERVIEW_COMPLETE - Please click the 'End Conversation' button to save your interview.\"\n\nThis exact phrase must appear at the end of your final message to signal completion.\n\nDo not provide personal opinions, summaries, or evaluations of the founder's answers. Your sole focus is to guide the conversation effectively and ensure each topic is meaningfully covered."

/-- The system message prepended at line 323-325. -/
def systemMessage : MsgV :=
  ⟨true, some (.str "system"), some (.str SYSTEM_PROMPT)⟩

/-- The per-element validation of lines 305-319, returning the outcome of
the loop and the number of empty-content warnings logged before it
finished or raised: each element must be a dict, have both the role and
content keys (either one missing raises), have string values for both,
and a role in {user, assistant}; empty-after-strip content only logs a
warning. -/
def validateMessages : List MsgV → Except PyErr Unit × Nat
  | [] => (.ok (), 0)
  | m :: rest =>
    if m.isDict = false then (.error .valueError, 0)
    else
      match m.role?, m.content? with
      | some (.str r), some (.str c) =>
        if r = "user" ∨ r = "assistant" then
          let w : Nat := if pyStrip c = "" then 1 else 0
          let t := validateMessages rest
          (t.1, w + t.2)
        else (.error .valueError, 0)
      | some _, some _ => (.error .valueError, 0)
      | _, _ => (.error .valueError, 0)

/-- An element the validation accepts. -/
def validMsg (m : MsgV) : Bool :=
  m.isDict &&
    match m.role?, m.content? with
    | some (.str r), some (.str _) => r = "user" || r = "assistant"
    | _, _ => false

/-- create_messages_with_system_prompt, returning the returned list or the
propagated exception, together with the number of empty-content warnings
logged.  A falsy argument (empty list, or falsy non-list) raises the
"cannot be empty" ValueError, whose logging skips len(); a truthy non-list
raises the "must be a list" ValueError, whose logging evaluates
`len(conversation_messages)` — a TypeError there replaces the ValueError.
A valid list returns the system message prepended to the original list.
The function performs no network call on any path. -/
def create_messages_with_system_prompt (h : PyListArg) :
    Except PyErr (List MsgV) × Nat :=
  match h with
  | .list l =>
    if l.isEmpty then (.error .valueError, 0)
    else
      match validateMessages l with
      | (.ok _, w) => (.ok (systemMessage :: l), w)
      | (.error e, w) => (.error e, w)
  | .nonList truthy hasLen =>
    if truthy then
      if hasLen then (.error .valueError, 0) else (.error .typeError, 0)
    else (.error .valueError, 0)

/-! ## Session lifecycle (src/app.py)

The Streamlit session state, and every code path of src/app.py that
mutates it, as a small state machine. -/

/-- The session state of src/app.py: messages (role/content pairs),
session_id, conversation_ended, error_count. -/
structure AppSession where
  messages : List (String × String)
  session_id : String
  conversation_ended : Bool
  error_count : Nat
deriving DecidableEq

/-- start_new_conversation (lines 101-113): fresh message list, fresh
session id, conversation_ended reset to false, error count reset. -/
def start_new_conversation (newId : String) (_s : AppSession) : AppSession :=
  ⟨[], newId, false, 0⟩

/-- end_conversation (lines 115-194): with no messages it warns and
returns; otherwise it saves and sets conversation_ended to true exactly
when the save succeeded.  No branch sets the flag to false. -/
def end_conversation (saveResult : Bool) (s : AppSession) : AppSession :=
  if s.messages.isEmpty then s
  else if saveResult then { s with conversation_ended := true }
  else s

/-- The initial-greeting path (lines 311-325): when no messages exist yet,
append the assistant greeting. -/
def sendInitialGreeting (text : String) (s : AppSession) : AppSession :=
  if s.messages.isEmpty then { s with messages := [("assistant", text)] }
  else s

/-- The chat-input path (lines 329-400): append the user message and the
assistant reply, and add whatever error-count increments the error
branches performed.  conversation_ended is never touched. -/
def processChatTurn (prompt reply : String) (errs : Nat)
    (s : AppSession) : AppSession :=
  { s with messages := s.messages ++ [("user", prompt), ("assistant", reply)],
           error_count := s.error_count + errs }

/-- Every operation of src/app.py that mutates the session state. -/
inductive SessionOp where
  | startNew (newId : String)
  | endConv (saveResult : Bool)
  | greet (text : String)
  | chatTurn (prompt reply : String) (errs : Nat)

/-- Apply one lifecycle operation. -/
def applyOp : SessionOp → AppSession → AppSession
  | .startNew newId => start_new_conversation newId
  | .endConv saveResult => end_conversation saveResult
  | .greet text => sendInitialGreeting text
  | .chatTurn prompt reply errs => processChatTurn prompt reply errs

set_option maxRecDepth 40000

/-! ## Helper lemmas -/

/-- The parse-failure record carries all six required keys. -/
theorem hasRequiredKeys_parseFailRecord (t : String) :
    hasRequiredKeys (parseFailRecord t) = true := rfl

/-- The generic-exception record carries all six required keys. -/
theorem hasRequiredKeys_genericErrorRecord :
    hasRequiredKeys genericErrorRecord = true := rfl

/-- The backfill loop on a JSON object: it returns the object unchanged
when every field in the list is one of its keys, and aborts with the
TypeError of the one-argument log_warning on the first missing field. -/
theorem backfill_jobj (fields : List String) (d : List (String × JVal)) :
    backfill fields (.jobj d) =
      if fields.all (fun f => d.any (fun p => p.1 = f)) then .ok (.jobj d)
      else .error .typeError := by
  induction fields with
  | nil => simp [backfill]
  | cons f rest ih =>
    cases hd : d.any (fun p => p.1 = f) with
    | true =>
      have hstep : backfill (f :: rest) (.jobj d) = backfill rest (.jobj d) := by
        simp [backfill, pyContains, hd]
      rw [hstep, ih, List.all_cons, hd, Bool.true_and]
    | false =>
      have hstep : backfill (f :: rest) (.jobj d) =
          Except.error PyErr.typeError := by
        simp [backfill, pyContains, hd]
      rw [hstep, List.all_cons, hd, Bool.false_and]
      simp

/-- On any value the backfill loop either finds every field contained and
returns the value unchanged, or aborts with an exception: a raising
containment test, or the TypeError of the one-argument log_warning in
the field-missing branch. -/
theorem backfill_spec (fields : List String) (v : JVal) :
    (backfill fields v = .ok v ∧ ∀ f ∈ fields, pyContains v f = .ok true)
    ∨ ∃ e, backfill fields v = .error e := by
  induction fields with
  | nil => exact Or.inl ⟨rfl, by simp⟩
  | cons f rest ih =>
    cases hpc : pyContains v f with
    | error e => exact Or.inr ⟨e, by simp [backfill, hpc]⟩
    | ok b =>
      cases b with
      | true =>
        rcases ih with ⟨h1, h2⟩ | ⟨e, he⟩
        · refine Or.inl ⟨by simp [backfill, hpc, h1], ?_⟩
          intro g hg
          rcases List.mem_cons.mp hg with hg | hg
          · exact hg ▸ hpc
          · exact h2 g hg
        · exact Or.inr ⟨e, by simp [backfill, hpc, he]⟩
      | false => exact Or.inr ⟨.typeError, by simp [backfill, hpc]⟩

/-- A history all of whose elements are accepted passes the element
validation loop. -/
theorem validateMessages_ok (l : List MsgV)
    (h : ∀ m ∈ l, validMsg m = true) :
    (validateMessages l).1 = .ok () := by
  induction l with
  | nil => rfl
  | cons m rest ih =>
    have hm : validMsg m = true := h m (List.mem_cons_self m rest)
    have hrest : (validateMessages rest).1 = .ok () :=
      ih fun x hx => h x (List.mem_cons_of_mem m hx)
    obtain ⟨d, r, c⟩ := m
    unfold validMsg at hm
    rw [Bool.and_eq_true] at hm
    obtain ⟨hd, hrc⟩ := hm
    cases d with
    | false => exact absurd hd (by simp)
    | true =>
      match r, c, hrc with
      | some (.str rs), some (.str cs), hrc =>
        have hrole : rs = "user" ∨ rs = "assistant" := by
          rcases Bool.or_eq_true .. |>.mp hrc with h1 | h1
          · exact Or.inl (by simpa using h1)
          · exact Or.inr (by simpa using h1)
        simp [validateMessages, hrole, hrest]

/-! ## Claim theorems -/

/-- C1. The Remote Completion Gateway get_chat_response retries
transient failures (rate limit, timeout, connection) up to 3 total
attempts: two transient failures followed by a success return the
successful chunks after exactly 3 attempts; an authentication failure
yields the fixed support message after exactly 1 attempt; exhausting the
retries on each transient kind yields that kind's fixed apology string
(the model's total return type embodies that no exception propagates). -/
theorem get_chat_response_retry_spec (o : Nat → AttemptOutcome)
    (chunks : List String) :
    (TransientOutcome (o 0) → TransientOutcome (o 1) →
      o 2 = .success chunks → get_chat_response o = ⟨chunks, 3⟩)
    ∧ (o 0 = .authError → get_chat_response o = ⟨[authenticationMsg], 1⟩)
    ∧ (o 0 = .rateLimit → o 1 = .rateLimit → o 2 = .rateLimit →
      get_chat_response o = ⟨[rateLimitMsg], 3⟩)
    ∧ (o 0 = .timeout → o 1 = .timeout → o 2 = .timeout →
      get_chat_response o = ⟨[timeoutMsg], 3⟩)
    ∧ (o 0 = .connError → o 1 = .connError → o 2 = .connError →
      get_chat_response o = ⟨[connectionMsg], 3⟩) := by
  refine ⟨?_, ?_, ?_, ?_, ?_⟩
  · intro h0 h1 h2
    rcases h0 with h0 | h0 | h0 <;> rcases h1 with h1 | h1 | h1 <;>
      simp [get_chat_response, chatAttempts, h0, h1, h2]
  · intro h0
    simp [get_chat_response, chatAttempts, h0]
  · intro h0 h1 h2
    simp [get_chat_response, chatAttempts, h0, h1, h2]
  · intro h0 h1 h2
    simp [get_chat_response, chatAttempts, h0, h1, h2]
  · intro h0 h1 h2
    simp [get_chat_response, chatAttempts, h0, h1, h2]

/-- C1 witness: a rate-limited then timed-out then successful call
returns the success after 3 attempts, and an authentication failure
returns the fixed message after 1 attempt. -/
theorem get_chat_response_retry_spec_witness :
    get_chat_response (fun i => if i = 0 then .rateLimit
      else if i = 1 then .timeout else .success ["All done."]) =
      ⟨["All done."], 3⟩
    ∧ get_chat_response (fun _ => .authError) = ⟨[authenticationMsg], 1⟩ :=
  ⟨(get_chat_response_retry_spec _ ["All done."]).1
      (Or.inl rfl) (Or.inr (Or.inl rfl)) rfl,
   (get_chat_response_retry_spec (fun _ => .authError) []).2.1 rfl⟩

/-- C2. The Session Save Orchestrator save_conversation_with_summary
returns false without calling the store when messages is empty, and
otherwise calls the store's put exactly with the best-effort
summary/evaluation values (a generation failure leaves the value absent)
and returns exactly put's boolean result. -/
theorem save_conversation_with_summary_spec (messages : List MsgV)
    (genSummary : Except PyErr String) (genEval : Except PyErr JVal)
    (put : Option String → Option JVal → Bool) :
    (messages = [] →
      save_conversation_with_summary messages genSummary genEval put =
        (false, none))
    ∧ (messages ≠ [] →
      save_conversation_with_summary messages genSummary genEval put =
        (put genSummary.toOption genEval.toOption,
         some (genSummary.toOption, genEval.toOption))) := by
  constructor
  · intro h
    subst h
    rfl
  · intro h
    simp [save_conversation_with_summary, List.isEmpty_iff, h]

/-- C2 witness: with one message, a failing summary generation, a
succeeding evaluation generation and a store accepting the write, the
store is called with summary absent and the evaluation present, and the
overall result is the store's true; with no messages the result is false
and the store is not called. -/
theorem save_conversation_with_summary_spec_witness :
    save_conversation_with_summary [mkMsg "user" "Hi, I'm Alex"]
      (.error .valueError) (.ok (neutralRecord "e")) (fun _ _ => true) =
      (true, some (none, some (neutralRecord "e")))
    ∧ save_conversation_with_summary [] (.ok "s") (.ok (neutralRecord "e"))
      (fun _ _ => false) = (false, none) :=
  ⟨(save_conversation_with_summary_spec [mkMsg "user" "Hi, I'm Alex"]
      (.error .valueError) (.ok (neutralRecord "e")) (fun _ _ => true)).2
      (by simp),
   (save_conversation_with_summary_spec [] (.ok "s")
      (.ok (neutralRecord "e")) (fun _ _ => false)).1 rfl⟩

/-- C3. The completion detector is_complete (modelled from the spec: no
detector code exists under src/) returns true exactly when the
case-insensitive sentinel substring INTERVIEW_COMPLETE occurs in the
reply: the characterisation below, a true-positive, a lowercase
true-positive, a near-miss with altered punctuation (space for
underscore), and an unrelated reply. -/
theorem is_complete_spec :
    (∀ reply, is_complete reply = true ↔
      lowerChars SENTINEL <:+: lowerChars reply)
    ∧ is_complete "Thank you! INTERVIEW_COMPLETE - Please click the 'End Conversation' button to save your interview." = true
    ∧ is_complete "thank you! interview_complete - please click the button." = true
    ∧ is_complete "Thank you! INTERVIEW COMPLETE - please click the button." = false
    ∧ is_complete "The interview is complete." = false := by
  refine ⟨fun reply => ?_, by decide, by decide, by decide, by decide⟩
  simp [is_complete]

/-- C4 counterexample. Calling save_conversation with a valid session id
and messages = None (a falsy non-list with no len()) raises a TypeError
— the except handler's len(messages) fails — instead of returning false,
refuting the claim that every invalid input returns false rather than
raising.  No write call is made. -/
theorem save_conversation_none_messages_raises :
    save_conversation (.str "abc123") (.nonList false false)
      (fun _ => .ok true) = ⟨.error .typeError, 0, []⟩
    ∧ (save_conversation (.str "abc123") (.nonList false false)
      (fun _ => .ok true)).result ≠ .ok false := by
  refine ⟨rfl, ?_⟩
  intro h
  have h2 : (save_conversation (.str "abc123") (.nonList false false)
      (fun _ => .ok true)).result = Except.error PyErr.typeError := rfl
  rw [h2] at h
  exact Except.noConfusion h

/-- C4 amended. For every invalid input to save_conversation — empty or
non-string session_id, or an empty, non-list, or malformed messages value
— no write call is made; when messages supports len() the validation
failure is retried through the full 3-attempt loop with back-off sleeps
of 1 and 2 seconds and the call then returns false rather than raising,
and when messages is a non-list without len() the error-logging itself
fails and the call raises a TypeError instead of returning false. -/
theorem save_conversation_invalid_input_spec (sid : SessArg)
    (msgs : PyListArg) (write : Nat → WriteOutcome)
    (h : validSaveInput sid msgs = false) :
    (save_conversation sid msgs write).writeCalls = 0
    ∧ (msgsLenOk msgs = true →
      save_conversation sid msgs write = ⟨.ok false, 0, [1, 2]⟩)
    ∧ (msgsLenOk msgs = false →
      save_conversation sid msgs write = ⟨.error .typeError, 0, []⟩) := by
  have h' : (sessionIdOk sid && msgsValid msgs) = false := h
  refine ⟨?_, ?_, ?_⟩
  · cases hlen : msgsLenOk msgs <;>
      simp [save_conversation, saveAttempts, h', hlen]
  · intro hlen
    simp [save_conversation, saveAttempts, h', hlen]
  · intro hlen
    simp [save_conversation, saveAttempts, h', hlen]

/-- C4 witness: an empty messages list with a valid session id makes no
write call and returns false after the 3 validation attempts with sleeps
1 and 2. -/
theorem save_conversation_invalid_input_spec_witness :
    save_conversation (.str "abc123") (.list []) (fun _ => .ok true) =
      ⟨.ok false, 0, [1, 2]⟩ :=
  (save_conversation_invalid_input_spec (.str "abc123") (.list [])
    (fun _ => .ok true) rfl).2.1 rfl

/-- C6. For valid input, save_conversation retries an exception of the
underlying write: three straight exceptions make exactly 3 write calls
with exponential back-off sleeps 1 = 2^0 and 2 = 2^1 and then return
false rather than raising; two exceptions followed by a successful write
with data make exactly 3 write calls and return true. -/
theorem save_conversation_retry_spec (sid : SessArg) (msgs : PyListArg)
    (write : Nat → WriteOutcome) (h : validSaveInput sid msgs = true) :
    (write 0 = .exn → write 1 = .exn → write 2 = .exn →
      save_conversation sid msgs write = ⟨.ok false, 3, [1, 2]⟩)
    ∧ (write 0 = .exn → write 1 = .exn → write 2 = .ok true →
      save_conversation sid msgs write = ⟨.ok true, 3, [1, 2]⟩) := by
  have h' : (sessionIdOk sid && msgsValid msgs) = true := h
  constructor
  · intro h0 h1 h2
    simp [save_conversation, saveAttempts, h', h0, h1, h2]
  · intro h0 h1 h2
    simp [save_conversation, saveAttempts, h', h0, h1, h2]

/-- C6 witness: a valid one-message save whose write raises on every
attempt makes 3 write calls, sleeps 1 then 2 seconds, and returns
false. -/
theorem save_conversation_retry_spec_witness :
    save_conversation (.str "abc123") (.list [mkMsg "user" "hi"])
      (fun _ => .exn) = ⟨.ok false, 3, [1, 2]⟩ :=
  (save_conversation_retry_spec (.str "abc123")
    (.list [mkMsg "user" "hi"]) (fun _ => .exn) rfl).1 rfl rfl rfl

/-- C7. On a valid non-empty history, create_messages_with_system_prompt
returns the fixed system message prepended to the unchanged input
history: the output has length input + 1, its element 0 is the system
message, and its remaining elements are the input in order. -/
theorem create_messages_with_system_prompt_valid_spec (l : List MsgV)
    (hne : l ≠ []) (hv : ∀ m ∈ l, validMsg m = true) :
    ∃ w, create_messages_with_system_prompt (.list l) =
        (.ok (systemMessage :: l), w)
      ∧ (systemMessage :: l).length = l.length + 1
      ∧ (systemMessage :: l).head? = some systemMessage
      ∧ (systemMessage :: l).tail = l := by
  have hok : (validateMessages l).1 = .ok () := validateMessages_ok l hv
  rcases hveq : validateMessages l with ⟨res, w⟩
  rw [hveq] at hok
  have hres : res = Except.ok () := hok
  subst hres
  refine ⟨w, ?_, by simp, rfl, rfl⟩
  show (if l.isEmpty then ((.error .valueError, 0) : Except PyErr (List MsgV) × Nat)
    else match validateMessages l with
      | (.ok _, w) => (.ok (systemMessage :: l), w)
      | (.error e, w) => (.error e, w)) = (.ok (systemMessage :: l), w)
  rw [if_neg (by simpa [List.isEmpty_iff] using hne), hveq]

/-- C7 witness: a two-turn valid history gets exactly the system message
prepended. -/
theorem create_messages_with_system_prompt_valid_spec_witness :
    ∃ w, create_messages_with_system_prompt
        (.list [mkMsg "user" "Hi, I'm Alex", mkMsg "assistant" "Welcome!"]) =
        (.ok [systemMessage, mkMsg "user" "Hi, I'm Alex",
          mkMsg "assistant" "Welcome!"], w)
      ∧ ([systemMessage, mkMsg "user" "Hi, I'm Alex",
          mkMsg "assistant" "Welcome!"] : List MsgV).length =
        ([mkMsg "user" "Hi, I'm Alex", mkMsg "assistant" "Welcome!"] :
          List MsgV).length + 1
      ∧ ([systemMessage, mkMsg "user" "Hi, I'm Alex",
          mkMsg "assistant" "Welcome!"] : List MsgV).head? =
        some systemMessage
      ∧ ([systemMessage, mkMsg "user" "Hi, I'm Alex",
          mkMsg "assistant" "Welcome!"] : List MsgV).tail =
        [mkMsg "user" "Hi, I'm Alex", mkMsg "assistant" "Welcome!"] :=
  create_messages_with_system_prompt_valid_spec
    [mkMsg "user" "Hi, I'm Alex", mkMsg "assistant" "Welcome!"]
    (by simp) (by decide)

/-- C5 counterexample. Two clauses of the claim fail on the program.
Free-form (non-JSON) text is not stored under an evaluation_text field:
it falls into the parse-failure path, producing the neutral-default
record with the error marker and the raw-response excerpt and no
evaluation_text key.  And a structured response missing required fields
is not backfilled: the one-argument log_warning of line 248 raises
TypeError before line 249's assignment, so the call degrades to the
generic-exception record — the present field's value ("positive") is
lost, not preserved alongside backfilled defaults. -/
theorem generate_evaluation_freeform_counterexample :
    generate_evaluation [mkMsg "user" "Hello there"] true
      (.resp "The founder seems promising." (.error ())) =
      parseFailRecord "The founder seems promising."
    ∧ jLookup (generate_evaluation [mkMsg "user" "Hello there"] true
      (.resp "The founder seems promising." (.error ())))
      "evaluation_text" = none
    ∧ jLookup (generate_evaluation [mkMsg "user" "Hello there"] true
      (.resp "The founder seems promising." (.error ())))
      "error" = some (.jstr "Failed to parse evaluation JSON")
    ∧ generate_evaluation [mkMsg "user" "Hello there"] true
      (.resp "x" (.ok (.jobj [("sentiment", .jstr "positive")]))) =
      genericErrorRecord
    ∧ jLookup (generate_evaluation [mkMsg "user" "Hello there"] true
      (.resp "x" (.ok (.jobj [("sentiment", .jstr "positive")]))))
      "sentiment" = some (.jstr "neutral") :=
  ⟨rfl, rfl, rfl, rfl, rfl⟩

/-- C5 amended. On a call that reaches the model, generate_evaluation
returns a structured object response as-is when every one of the six
required fields is present; a structured response missing any required
field is not backfilled — the one-argument log_warning of line 248
raises TypeError before line 249's intended default assignment, so the
call degrades to the fixed generic neutral-default record with its error
marker — and any unparseable response, free-form text included (there
being no evaluation_text path in the code), degrades to the fixed
neutral-default record annotated with the error marker and the
200-character-truncated raw response; it never raises (the model's
return type is a plain value). -/
theorem generate_evaluation_shapes_spec (ms : List MsgV) (raw : String)
    (h : reachesCall ms = true) :
    (∀ d, (requiredFields.all (fun f => d.any (fun p => p.1 = f))) = true →
      generate_evaluation ms true (.resp raw (.ok (.jobj d))) = .jobj d)
    ∧ (∀ d, (requiredFields.all (fun f => d.any (fun p => p.1 = f))) = false →
      generate_evaluation ms true (.resp raw (.ok (.jobj d))) =
        genericErrorRecord)
    ∧ generate_evaluation ms true (.resp raw (.error ())) =
      parseFailRecord (pyStrip raw)
    ∧ jLookup (parseFailRecord (pyStrip raw)) "error" =
      some (.jstr "Failed to parse evaluation JSON")
    ∧ jLookup (parseFailRecord (pyStrip raw)) "raw_response" =
      some (.jstr (truncate200 (pyStrip raw)))
    ∧ jLookup (parseFailRecord (pyStrip raw)) "evaluation_text" = none
    ∧ hasRequiredKeys (parseFailRecord (pyStrip raw)) = true
    ∧ jLookup genericErrorRecord "error" =
      some (.jstr "Error generating evaluation")
    ∧ hasRequiredKeys genericErrorRecord = true := by
  unfold reachesCall at h
  rw [Bool.and_eq_true] at h
  obtain ⟨h1, h2⟩ := h
  rw [Bool.not_eq_true'] at h1
  cases hc : conversationText ms with
  | error e =>
    rw [hc] at h2
    exact absurd h2 (by simp)
  | ok txt =>
    rw [hc] at h2
    rw [Bool.not_eq_true'] at h2
    have h2' : ¬ (pyStrip txt = "") := of_decide_eq_false h2
    refine ⟨?_, ?_, ?_, rfl, rfl, rfl, rfl, rfl, rfl⟩
    · intro d hd
      simp [generate_evaluation, h1, hc, h2', backfill_jobj, hd]
    · intro d hd
      simp [generate_evaluation, h1, hc, h2', backfill_jobj, hd]
    · simp [generate_evaluation, h1, hc, h2']

/-- C5 witness: with a one-message transcript, a structured response
with all six fields present is returned unchanged; one missing any field
(here all but sentiment) degrades to the generic record; an unparseable
response yields the annotated parse-failure record. -/
theorem generate_evaluation_shapes_spec_witness :
    generate_evaluation [mkMsg "user" "Hello there"] true
      (.resp "x" (.ok (.jobj [("sentiment", .jstr "positive"),
        ("key_topics", .jarr [.jstr "pricing"]),
        ("user_satisfaction", .jnum 7), ("conversation_quality", .jnum 8),
        ("main_concerns", .jarr []),
        ("resolution_status", .jstr "resolved")]))) =
      .jobj [("sentiment", .jstr "positive"),
        ("key_topics", .jarr [.jstr "pricing"]),
        ("user_satisfaction", .jnum 7), ("conversation_quality", .jnum 8),
        ("main_concerns", .jarr []),
        ("resolution_status", .jstr "resolved")]
    ∧ generate_evaluation [mkMsg "user" "Hello there"] true
      (.resp "x" (.ok (.jobj [("sentiment", .jstr "positive")]))) =
      genericErrorRecord
    ∧ generate_evaluation [mkMsg "user" "Hello there"] true
      (.resp "x" (.error ())) = parseFailRecord "x" := by
  have h := generate_evaluation_shapes_spec [mkMsg "user" "Hello there"]
    "x" rfl
  exact ⟨h.1 [("sentiment", .jstr "positive"),
      ("key_topics", .jarr [.jstr "pricing"]),
      ("user_satisfaction", .jnum 7), ("conversation_quality", .jnum 8),
      ("main_concerns", .jarr []),
      ("resolution_status", .jstr "resolved")] rfl,
    h.2.1 [("sentiment", .jstr "positive")] rfl,
    h.2.2.1.trans (by rfl)⟩

/-- C8. The claim matches the documented contract ("Raises: ValueError:
If input validation fails"), but evaluating the model at a truthy
non-sequence input (e.g. the integer 5, which supports no len()) shows
the code raising TypeError from the error-logging path instead: the
handler's len(conversation_messages) fails before the ValueError can
propagate. -/
theorem create_messages_nonsequence_bug :
    create_messages_with_system_prompt (.nonList true false) =
      (.error .typeError, 0)
    ∧ (create_messages_with_system_prompt (.nonList true false)).1 ≠
      .error .valueError := by
  refine ⟨rfl, ?_⟩
  intro h
  have h2 : (create_messages_with_system_prompt (.nonList true false)).1 =
      Except.error PyErr.typeError := rfl
  rw [h2] at h
  have : PyErr.typeError = PyErr.valueError := Except.error.inj h
  exact PyErr.noConfusion this

/-- C10 counterexample. generate_evaluation can return a value that is
not a record with the six keys: a model response that is a JSON string
containing all six field names as substrings passes every Python
`field not in data` check (substring containment on a str) and is
returned as-is, refuting the claim's every-return-value clause. -/
theorem generate_evaluation_nonrecord_counterexample :
    generate_evaluation [mkMsg "user" "Hello there"] true
      (.resp "irrelevant" (.ok (.jstr "sentiment key_topics user_satisfaction conversation_quality main_concerns resolution_status"))) =
      .jstr "sentiment key_topics user_satisfaction conversation_quality main_concerns resolution_status"
    ∧ hasRequiredKeys (.jstr "sentiment key_topics user_satisfaction conversation_quality main_concerns resolution_status") = false :=
  ⟨rfl, rfl⟩

/-- C10 amended. generate_evaluation never raises (its result type is a
plain value), and on every path — empty input and empty filtered
transcript (which degrade to the generic-exception record because their
one-argument log_warning calls raise TypeError first), parse failure,
generic exception, and a successfully parsed response missing a required
field (where the intended backfill is dead code for the same reason and
the call degrades to the generic record) — the result is a record
containing all six required keys; the one escape is a successfully
parsed value that passes Python's containment test for all six field
names, which is returned as-is. -/
theorem generate_evaluation_total_spec (ms : List MsgV) (clientOk : Bool)
    (call : ModelCall) :
    hasRequiredKeys (generate_evaluation ms clientOk call) = true
    ∨ ∃ raw v, call = .resp raw (.ok v)
        ∧ generate_evaluation ms clientOk call = v
        ∧ ∀ f ∈ requiredFields, pyContains v f = .ok true := by
  unfold generate_evaluation
  split
  · exact Or.inl hasRequiredKeys_genericErrorRecord
  split
  · exact Or.inl hasRequiredKeys_genericErrorRecord
  split
  · exact Or.inl hasRequiredKeys_genericErrorRecord
  split
  · exact Or.inl hasRequiredKeys_genericErrorRecord
  cases call with
  | exn => exact Or.inl hasRequiredKeys_genericErrorRecord
  | resp raw parsed =>
    cases parsed with
    | error e => exact Or.inl (hasRequiredKeys_parseFailRecord _)
    | ok v =>
      rcases backfill_spec requiredFields v with ⟨h1, h2⟩ | ⟨e, he⟩
      · exact Or.inr ⟨raw, v, rfl, by simp [h1], h2⟩
      · exact Or.inl (by simp [he, hasRequiredKeys_genericErrorRecord])

/-- C10 witness: the six-key guarantee extracted at three concrete
inputs, one per path kind — empty input, a raising call, and an object
response missing every required field. -/
theorem generate_evaluation_total_spec_witness :
    hasRequiredKeys (generate_evaluation [] true .exn) = true
    ∧ hasRequiredKeys (generate_evaluation [mkMsg "user" "Hello there"]
      true .exn) = true
    ∧ hasRequiredKeys (generate_evaluation [mkMsg "user" "Hello there"]
      true (.resp "x" (.ok (.jobj [])))) = true :=
  ⟨(generate_evaluation_total_spec [] true .exn).resolve_right
      (by rintro ⟨raw, v, h, -⟩; exact ModelCall.noConfusion h),
   (generate_evaluation_total_spec [mkMsg "user" "Hello there"] true
      .exn).resolve_right
      (by rintro ⟨raw, v, h, -⟩; exact ModelCall.noConfusion h),
   (generate_evaluation_total_spec [mkMsg "user" "Hello there"] true
      (.resp "x" (.ok (.jobj [])))).resolve_right
      (by
        rintro ⟨raw, v, h, -, hc⟩
        have hv : JVal.jobj [] = v := Except.ok.inj (ModelCall.resp.inj h).2
        have hs := hc "sentiment" (by simp [requiredFields])
        rw [← hv] at hs
        simp [pyContains] at hs)⟩

/-- C9. The session completion flag conversation_ended is a one-way
latch: from a state where it is true, no lifecycle operation except
start_new_conversation can make it false, and start_new_conversation is
the full session reset (empty messages, fresh id, flag false, error
count zero). -/
theorem conversation_ended_latch (s : AppSession) (op : SessionOp)
    (h : s.conversation_ended = true) :
    ((applyOp op s).conversation_ended = false →
      ∃ newId, op = .startNew newId)
    ∧ (∀ newId, applyOp (.startNew newId) s = ⟨[], newId, false, 0⟩) := by
  constructor
  · intro hfalse
    cases op with
    | startNew newId => exact ⟨newId, rfl⟩
    | endConv saveResult =>
      exfalso
      revert hfalse
      simp only [applyOp, end_conversation]
      split
      · simp [h]
      · split <;> simp [h]
    | greet text =>
      exfalso
      revert hfalse
      simp only [applyOp, sendInitialGreeting]
      split <;> simp [h]
    | chatTurn prompt reply errs =>
      exfalso
      revert hfalse
      simp [applyOp, processChatTurn, h]
  · intro newId
    rfl

/-- C9 witness: from an ended session, ending again cannot unset the
flag, and starting a new conversation performs the full reset. -/
theorem conversation_ended_latch_witness :
    applyOp (.startNew "id-2")
      ⟨[("user", "hi"), ("assistant", "bye")], "id-1", true, 0⟩ =
      ⟨[], "id-2", false, 0⟩ :=
  (conversation_ended_latch
    ⟨[("user", "hi"), ("assistant", "bye")], "id-1", true, 0⟩
    (.endConv true) rfl).2 "id-2"

end NewcoAgent
